import Mathlib

/-!
Verification of the LeafLens field-simulation state machine (`src/app.py`).

The repository is a Streamlit dashboard; its core is the session state
(grid of cell statuses, tank level, counters, event log) mutated by the
three operations (autonomous cycle, manual spray, blanket spray) and the
manual disease-marking click handler.  This file embeds that core: numpy
grid cells become a row-major `List CellStatus` of length 16, the float
tank level becomes `ℚ` (all amounts in the program are multiples of 0.5 L,
which binary floats represent and subtract exactly), and the random draws
of `autonomous_cycle` (`random.randint`, `set(random.sample(...))`,
`random.choice`) become an explicit injected `ScanDraw`.
-/

namespace GreenProtect

/-- Cell states, from the `STATE_*` constants of `app.py`. -/
inductive CellStatus where
  | Healthy
  | Diseased
  | Spraying
  | Scanning
  | Sprayed
deriving DecidableEq, Repr

/-- The 4×4 numpy array `grid_status` in row-major layout: cell `(r, c)` is
entry `r * 4 + c`. -/
abbrev Grid := List CellStatus

abbrev GRID_ROWS : ℕ := 4

abbrev GRID_COLS : ℕ := 4

/-- `BASE_SPRAY_AMOUNT = 1.0`. -/
def BASE_SPRAY_AMOUNT : ℚ := 1

/-- `TANK_CAPACITY_LITERS = 100.0`. -/
def TANK_CAPACITY_LITERS : ℚ := 100

/-- `BLANKET_SPRAY_AMOUNT = 1.5` (local constant of the blanket-spray view). -/
def BLANKET_SPRAY_AMOUNT : ℚ := 3 / 2

/-- The `DISEASE_TYPES` catalog. -/
def DISEASE_TYPES : List String :=
  ["Blight (Severe)", "Rust (Moderate)", "Powdery Mildew (Moderate)",
   "Leaf Spot (Low)", "Aphids (Severe)", "Nematodes (Low)"]

/-- Python's substring test `pat in s`, via `splitOn`: `pat` occurs in `s`
exactly when splitting on it yields more than one part. -/
def strContains (s pat : String) : Bool := (s.splitOn pat).length != 1

/-- `get_pesticide_amount` of `app.py`: Severe → 2.0 L, Moderate → 1.5 L,
otherwise 1.0 L (times `BASE_SPRAY_AMOUNT`). -/
def get_pesticide_amount (disease_name : String) : ℚ :=
  if strContains disease_name "Severe" then 2 * BASE_SPRAY_AMOUNT
  else if strContains disease_name "Moderate" then 3 / 2 * BASE_SPRAY_AMOUNT
  else 1 * BASE_SPRAY_AMOUNT

/-- Python's `f-string` format `:.1f` for the exact multiples of 0.1 L that
arise in this program (all tank values are multiples of 0.5). -/
def fmt1 (q : ℚ) : String :=
  let t : ℤ := Int.floor (q * 10)
  toString (t / 10) ++ "." ++ toString (t % 10).natAbs

/-- `add_to_log` of `app.py`: insert the message at index 0, then pop the
tail entry if the log now exceeds 20 entries.  (The wall-clock timestamp
prefix is presentation data and is left out of the message.) -/
def add_to_log (log : List String) (message : String) : List String :=
  if (message :: log).length > 20 then (message :: log).dropLast
  else message :: log

/-- One element of `last_scan_results`: the dict
`{"coords": (r+1, c+1), "disease": ..., "pesticide_used": ...}` built by the
scan loop. -/
structure Finding where
  coords : ℕ × ℕ
  disease : String
  pesticide_used : ℚ
deriving DecidableEq, Repr

/-- Python's `random.randint a b` (both ends inclusive) as a function of a
draw seed: the uniform image of `s % (b - a + 1)` shifted to `[a, b]`. -/
def randint (a b s : ℕ) : ℕ := a + s % (b - a + 1)

/-- The injected random source of one autonomous cycle: the seed for
`random.randint(3, 5)`, the value of `set(random.sample(all_coords, n))`
(a set, since `app.py` wraps the sample in `set(...)`), and the successive
`random.choice(DISEASE_TYPES)` draws as indices into the catalog. -/
structure ScanDraw where
  seed : ℕ
  cells : Finset (ℕ × ℕ)
  diseaseIdx : ℕ → ℕ

/-- `num_diseased = random.randint(3, 5)`. -/
def ScanDraw.numDiseased (d : ScanDraw) : ℕ := randint 3 5 d.seed

/-- The contract of `set(random.sample(all_coords, num_diseased))`: the
sample is drawn without replacement from the 4×4 coordinates, so the set
has exactly `num_diseased` members, all in range. -/
def ScanDraw.sampleOk (d : ScanDraw) : Prop :=
  d.cells.card = d.numDiseased ∧ ∀ p ∈ d.cells, p.1 < 4 ∧ p.2 < 4

/-- `all_coords = [(r, c) for r in range(GRID_ROWS) for c in range(GRID_COLS)]`,
which is also the row-major iteration order of every grid loop in `app.py`. -/
def allCoords : List (ℕ × ℕ) :=
  (List.range GRID_ROWS).flatMap fun r => (List.range GRID_COLS).map fun c => (r, c)

/-- Write `grid_status[r, c] = status`. -/
def setCell (g : Grid) (r c : ℕ) (status : CellStatus) : Grid :=
  g.set (r * 4 + c) status

/-- Read `grid_status[r, c]`. -/
def getCell (g : Grid) (r c : ℕ) : CellStatus :=
  g.getD (r * 4 + c) CellStatus.Healthy

/-- `np.full((GRID_ROWS, GRID_COLS), STATE_HEALTHY)`. -/
def initGrid : Grid := List.replicate 16 CellStatus.Healthy

/-- Step 2 of the autonomous cycle: every cell of the session grid is
overwritten with `STATE_DISEASED` when it is in `diseased_coords` and
`STATE_HEALTHY` otherwise, in row-major order. -/
def scanGrid (cells : Finset (ℕ × ℕ)) (g : Grid) : Grid :=
  allCoords.foldl
    (fun g p =>
      setCell g p.1 p.2
        (if p ∈ cells then CellStatus.Diseased else CellStatus.Healthy))
    g

/-- The `scan_results_to_store` accumulation of the scan loop: walking the
grid in row-major order, each diseased cell appends a finding whose coords
are stored 1-indexed (`(r+1, c+1)` in the source) and whose disease is the
next `random.choice(DISEASE_TYPES)` draw. -/
def scanFindingsAux (cells : Finset (ℕ × ℕ)) (dIdx : ℕ → ℕ) :
    List (ℕ × ℕ) → ℕ → List Finding
  | [], _ => []
  | p :: rest, k =>
    if p ∈ cells then
      let disease := DISEASE_TYPES.getD (dIdx k % DISEASE_TYPES.length) ""
      { coords := (p.1 + 1, p.2 + 1)
        disease := disease
        pesticide_used := get_pesticide_amount disease }
        :: scanFindingsAux cells dIdx rest (k + 1)
    else scanFindingsAux cells dIdx rest k

/-- The findings stored as `last_scan_results` by one autonomous cycle. -/
def scanFindings (d : ScanDraw) : List Finding :=
  scanFindingsAux d.cells d.diseaseIdx allCoords 0

/-- First spray loop of the autonomous cycle: against the (undebited)
session tank level, mark each affordable finding `STATE_SPRAYING` and
accumulate `total_sprayed_amount`. -/
def autoLoop1 (tank : ℚ) : List Finding → Grid → ℚ → Grid × ℚ
  | [], g, tot => (g, tot)
  | f :: rest, g, tot =>
    if tank ≥ f.pesticide_used then
      autoLoop1 tank rest
        (setCell g (f.coords.1 - 1) (f.coords.2 - 1) CellStatus.Spraying)
        (tot + f.pesticide_used)
    else autoLoop1 tank rest g tot

/-- Result of the second (debiting) spray loop. -/
structure SprayRes where
  grid : Grid
  tank : ℚ
  cnt : ℕ
  log : List String
deriving DecidableEq, Repr

/-- Second spray loop of the autonomous cycle: for each finding in order,
if the (now debited) tank covers the amount, mark `STATE_SPRAYED`,
increment `sprayed_plots_count` and debit the tank; otherwise only log the
failure. -/
def autoLoop2 : List Finding → Grid → ℚ → ℕ → List String → SprayRes
  | [], g, t, cnt, log => ⟨g, t, cnt, log⟩
  | f :: rest, g, t, cnt, log =>
    if t ≥ f.pesticide_used then
      autoLoop2 rest
        (setCell g (f.coords.1 - 1) (f.coords.2 - 1) CellStatus.Sprayed)
        (t - f.pesticide_used) (cnt + 1) log
    else
      autoLoop2 rest g t cnt
        (add_to_log log
          ("⚠️ Failed to spray Grid (" ++ toString f.coords.1 ++ ","
            ++ toString f.coords.2 ++ "). Tank empty."))

/-- The session state of `app.py` (`st.session_state`), restricted to the
core simulation fields. -/
structure SessionState where
  grid_status : Grid
  tank_level : ℚ
  battery_level : ℚ
  sprayed_plots_count : ℕ
  event_log : List String
  system_status : String
  last_scan_results : Option (List Finding)
deriving DecidableEq, Repr

/-- The state built by the `initialized` block of `app.py`. -/
def initialState : SessionState :=
  { grid_status := initGrid
    tank_level := TANK_CAPACITY_LITERS
    battery_level := 100
    sprayed_plots_count := 0
    event_log := add_to_log [] "System Initialized. Ready for operation."
    system_status := "Idle"
    last_scan_results := none }

/-- The autonomous-cycle view logic of `app.py` (state effects only; the
display copies, sleeps and progress bar are presentation).  The transient
`system_status` values `Scanning`/`Spraying` are overwritten by the final
`Idle`. -/
def autonomous_cycle (d : ScanDraw) (s : SessionState) : SessionState :=
  let log1 := add_to_log s.event_log "🤖 Autonomous scan initiated on main grid..."
  let g1 := scanGrid d.cells s.grid_status
  let fs := scanFindings d
  let log2 := add_to_log log1
    ("✅ Scan complete. Found " ++ toString fs.length ++ " diseased plots.")
  let log3 := add_to_log log2 "💧 Initiating simultaneous targeted spraying..."
  let m := autoLoop1 s.tank_level fs g1 0
  let r := autoLoop2 fs m.1 s.tank_level s.sprayed_plots_count log3
  let log5 := add_to_log r.log
    ("✅ " ++ toString d.cells.card ++ " grids have been treated. Used "
      ++ fmt1 m.2 ++ " L.")
  { s with
      grid_status := r.grid
      tank_level := r.tank
      sprayed_plots_count := r.cnt
      event_log := log5
      last_scan_results := some fs
      system_status := "Idle" }

/-- The manual-spray view logic of `app.py`.  When the tank is short the
script logs the failure, resets the status and reruns (aborting the rest);
otherwise the cell is marked `Spraying` then `Sprayed`, the tank debited
with a zero floor, and the counter incremented. -/
def manual_spray (r c : ℕ) (amount : ℚ) (s : SessionState) : SessionState :=
  let log1 := add_to_log s.event_log
    ("🛠️ Manual spray for Grid (" ++ toString (r + 1) ++ "," ++ toString (c + 1)
      ++ ") with " ++ fmt1 amount ++ " L pesticide.")
  if s.tank_level < amount then
    { s with
        event_log := add_to_log log1
          ("⚠️ Manual spray failed. Insufficient pesticide (" ++ fmt1 amount
            ++ " L required, " ++ fmt1 s.tank_level ++ " L available).")
        system_status := "Idle" }
  else
    { s with
        grid_status := setCell s.grid_status r c CellStatus.Sprayed
        tank_level := max 0 (s.tank_level - amount)
        sprayed_plots_count := s.sprayed_plots_count + 1
        event_log := add_to_log log1
          ("✅ Grid (" ++ toString (r + 1) ++ "," ++ toString (c + 1)
            ++ ") has been treated. Used " ++ fmt1 amount ++ " L.")
        system_status := "Idle" }

/-- Result of the blanket-spray loop: grid, tank, `sprayed_plots_count`,
`plots_actually_sprayed`, `total_blanket_used`. -/
structure BlanketRes where
  grid : Grid
  tank : ℚ
  cnt : ℕ
  ps : ℕ
  used : ℚ
deriving DecidableEq, Repr

/-- The row-major blanket-spray loop of `app.py`: while the tank covers
`BLANKET_SPRAY_AMOUNT` a cell is marked `Sprayed` and paid for; afterwards
each remaining cell is reverted to `Healthy`. -/
def blanketLoop : List (ℕ × ℕ) → Grid → ℚ → ℕ → ℕ → ℚ → BlanketRes
  | [], g, t, cnt, ps, tu => ⟨g, t, cnt, ps, tu⟩
  | p :: rest, g, t, cnt, ps, tu =>
    if t ≥ BLANKET_SPRAY_AMOUNT then
      blanketLoop rest (setCell g p.1 p.2 CellStatus.Sprayed)
        (t - BLANKET_SPRAY_AMOUNT) (cnt + 1) (ps + 1) (tu + BLANKET_SPRAY_AMOUNT)
    else
      blanketLoop rest (setCell g p.1 p.2 CellStatus.Healthy) t cnt ps tu

/-- The blanket-spray view logic of `app.py`: mark all cells `Spraying`,
run the paying loop, log a tank-exhaustion warning when fewer than all 16
cells were treated, then always log completion and return to `Idle`. -/
def blanket_spray (s : SessionState) : SessionState :=
  let log1 := add_to_log s.event_log
    "📢 Simultaneous blanket spray initiated for all grids."
  let g1 := allCoords.foldl (fun g p => setCell g p.1 p.2 CellStatus.Spraying)
    s.grid_status
  let r := blanketLoop allCoords g1 s.tank_level s.sprayed_plots_count 0 0
  let log2 :=
    if r.ps < GRID_ROWS * GRID_COLS then
      add_to_log log1
        ("⚠️ Tank empty. Only " ++ toString r.ps ++ " grids were treated.")
    else log1
  let log3 := add_to_log log2
    ("✅ Blanket spray complete. Used " ++ fmt1 r.used ++ " L.")
  { s with
      grid_status := r.grid
      tank_level := r.tank
      sprayed_plots_count := r.cnt
      event_log := log3
      system_status := "Idle" }

/-- The dashboard click handler of `app.py`: a clicked cell currently
`Healthy` or `Sprayed` is reclassified `Diseased` and the action logged;
any other status leaves the state untouched. -/
def markDiseased (r c : ℕ) (s : SessionState) : SessionState :=
  if getCell s.grid_status r c ∈ [CellStatus.Healthy, CellStatus.Sprayed] then
    { s with
        grid_status := setCell s.grid_status r c CellStatus.Diseased
        event_log := add_to_log s.event_log
          ("Manual Inspection: Disease marked at Grid (" ++ toString (r + 1)
            ++ "," ++ toString (c + 1) ++ ").") }
  else s

/-- One operator action on the session, as invocable from the sidebar and
dashboard of `app.py`. -/
inductive Op where
  | auto (d : ScanDraw)
  | manual (r c : ℕ) (amount : ℚ)
  | blanket
  | mark (r c : ℕ)

/-- The argument ranges the UI enforces: the manual-spray selectboxes offer
`range(4)` and the slider offers 1.0–10.0 L; a click addresses one of the
16 tiles; an autonomous cycle only runs with an actual `randint`/`sample`
draw. -/
def Op.valid : Op → Prop
  | .auto d => d.sampleOk
  | .manual r c amount => r < 4 ∧ c < 4 ∧ 1 ≤ amount ∧ amount ≤ 10
  | .blanket => True
  | .mark r c => r < 4 ∧ c < 4

/-- Apply one operation to the session state. -/
def applyOp (s : SessionState) : Op → SessionState
  | .auto d => autonomous_cycle d s
  | .manual r c amount => manual_spray r c amount s
  | .blanket => blanket_spray s
  | .mark r c => markDiseased r c s

/-- Run a sequence of operations from the initial session state. -/
def runOps (ops : List Op) : SessionState :=
  ops.foldl applyOp initialState

/-- Number of cells of the 4×4 grid whose status is `Diseased`. -/
def diseasedCount (g : Grid) : ℕ :=
  (allCoords.filter fun p => decide (getCell g p.1 p.2 = CellStatus.Diseased)).length

/-! Basic facts about the grid representation. -/

theorem length_setCell (g : Grid) (r c : ℕ) (v : CellStatus) :
    (setCell g r c v).length = g.length := by
  simp [setCell]

theorem getCell_setCell_self (g : Grid) (r c : ℕ) (v : CellStatus)
    (h : r * 4 + c < g.length) : getCell (setCell g r c v) r c = v := by
  simp [getCell, setCell, List.getD_eq_getElem?_getD, List.getElem?_set_self h]

theorem getCell_setCell_ne (g : Grid) {r c r' c' : ℕ} (v : CellStatus)
    (h : r' * 4 + c' ≠ r * 4 + c) :
    getCell (setCell g r' c' v) r c = getCell g r c := by
  simp [getCell, setCell, List.getD_eq_getElem?_getD, List.getElem?_set_ne h]

theorem cellIdx_ne {r c r' c' : ℕ} (hr : r < 4) (hc : c < 4) (hr' : r' < 4)
    (hc' : c' < 4) (hne : (r', c') ≠ (r, c)) : r' * 4 + c' ≠ r * 4 + c := by
  intro h
  have h1 : r' = r ∧ c' = c := by omega
  exact hne (by simp [h1.1, h1.2])

theorem mem_allCoords {p : ℕ × ℕ} : p ∈ allCoords ↔ p.1 < 4 ∧ p.2 < 4 := by
  cases p with
  | mk a b =>
    simp only [allCoords, GRID_ROWS, GRID_COLS, List.mem_flatMap, List.mem_map,
      List.mem_range, Prod.mk.injEq]
    constructor
    · rintro ⟨r, hr, c, hc, h1, h2⟩
      exact ⟨h1 ▸ hr, h2 ▸ hc⟩
    · rintro ⟨ha, hb⟩
      exact ⟨a, ha, b, hb, rfl, rfl⟩

theorem allCoords_nodup : allCoords.Nodup := by decide

theorem length_foldl_setCell (v : ℕ × ℕ → CellStatus) :
    ∀ (L : List (ℕ × ℕ)) (g : Grid),
      (L.foldl (fun g p => setCell g p.1 p.2 (v p)) g).length = g.length := by
  intro L
  induction L with
  | nil => intro g; rfl
  | cons q L ih => intro g; rw [List.foldl_cons, ih, length_setCell]

theorem getCell_foldl_write (v : ℕ × ℕ → CellStatus) :
    ∀ (L : List (ℕ × ℕ)) (g : Grid), (∀ p ∈ L, p.1 < 4 ∧ p.2 < 4) →
      g.length = 16 → ∀ r c : ℕ, r < 4 → c < 4 →
      getCell (L.foldl (fun g p => setCell g p.1 p.2 (v p)) g) r c
        = if (r, c) ∈ L then v (r, c) else getCell g r c := by
  intro L
  induction L with
  | nil => intro g _ _ r c _ _; simp
  | cons q L ih =>
    intro g hv hlen r c hr hc
    rw [List.foldl_cons,
      ih (setCell g q.1 q.2 (v q)) (fun p hp => hv p (List.mem_cons_of_mem _ hp))
        (by rw [length_setCell, hlen]) r c hr hc]
    by_cases hmem : (r, c) ∈ L
    · simp [hmem]
    · by_cases hq : q = (r, c)
      · subst hq
        have hs : getCell (setCell g r c (v (r, c))) r c = v (r, c) :=
          getCell_setCell_self g r c (v (r, c)) (by rw [hlen]; omega)
        simp [hmem, hs]
      · have hqv := hv q (List.mem_cons_self ..)
        rw [getCell_setCell_ne g (v q) (cellIdx_ne hr hc hqv.1 hqv.2 hq)]
        have : (r, c) ∉ q :: L := by
          simp only [List.mem_cons]
          rintro (h | h)
          · exact hq h.symm
          · exact hmem h
        simp [this, hmem]

theorem getCell_scanGrid (cells : Finset (ℕ × ℕ)) (g : Grid) (hlen : g.length = 16)
    {r c : ℕ} (hr : r < 4) (hc : c < 4) :
    getCell (scanGrid cells g) r c
      = if (r, c) ∈ cells then CellStatus.Diseased else CellStatus.Healthy := by
  have h := getCell_foldl_write
    (fun p => if p ∈ cells then CellStatus.Diseased else CellStatus.Healthy)
    allCoords g (fun p hp => mem_allCoords.1 hp) hlen r c hr hc
  rw [scanGrid, h, if_pos (mem_allCoords.2 ⟨hr, hc⟩)]

/-! Basic facts about the event log. -/

theorem add_to_log_head (log : List String) (m : String) :
    ∃ t, add_to_log log m = m :: t := by
  unfold add_to_log
  split
  · cases log with
    | nil => simp_all
    | cons a l => exact ⟨(a :: l).dropLast, by simp⟩
  · exact ⟨log, rfl⟩

theorem mem_add_to_log_cons (w m : String) (rest : List String) :
    w ∈ add_to_log (w :: rest) m := by
  unfold add_to_log
  split
  · cases rest with
    | nil => simp_all
    | cons a l => simp
  · simp

theorem add_to_log_length_le (log : List String) (m : String) (h : log.length ≤ 20) :
    (add_to_log log m).length ≤ 20 := by
  unfold add_to_log
  split <;> rename_i hl <;> simp_all

theorem add_to_log_evict (log : List String) (m : String)
    (h : (m :: log).length > 20) : add_to_log log m = m :: log.dropLast := by
  unfold add_to_log
  rw [if_pos h]
  cases log with
  | nil => simp_all
  | cons a l => simp

theorem foldl_add_to_log_le :
    ∀ (msgs log : List String), log.length ≤ 20 →
      (msgs.foldl add_to_log log).length ≤ 20 := by
  intro msgs
  induction msgs with
  | nil => intro log h; exact h
  | cons m rest ih =>
    intro log h
    exact ih (add_to_log log m) (add_to_log_length_le log m h)

/-! Characterization of the blanket-spray loop. -/

theorem blanketLoop_grid_length :
    ∀ (L : List (ℕ × ℕ)) (g : Grid) (t : ℚ) (cnt ps : ℕ) (tu : ℚ),
      (blanketLoop L g t cnt ps tu).grid.length = g.length := by
  intro L
  induction L with
  | nil => intro g t cnt ps tu; rfl
  | cons q L ih =>
    intro g t cnt ps tu
    simp only [blanketLoop]
    split <;> rw [ih, length_setCell]

theorem blanketLoop_unchanged :
    ∀ (L : List (ℕ × ℕ)) (g : Grid) (t : ℚ) (cnt ps : ℕ) (tu : ℚ) (r c : ℕ),
      (∀ p ∈ L, p.1 < 4 ∧ p.2 < 4) → r < 4 → c < 4 → (r, c) ∉ L →
      getCell (blanketLoop L g t cnt ps tu).grid r c = getCell g r c := by
  intro L
  induction L with
  | nil => intro g t cnt ps tu r c _ _ _ _; rfl
  | cons q L ih =>
    intro g t cnt ps tu r c hv hr hc hnm
    have hq := hv q (List.mem_cons_self ..)
    have hqne : q ≠ (r, c) := fun h => hnm (h ▸ List.mem_cons_self ..)
    have hL : (r, c) ∉ L := fun h => hnm (List.mem_cons_of_mem _ h)
    have hvL := fun p hp => hv p (List.mem_cons_of_mem q hp)
    simp only [blanketLoop]
    split <;>
      rw [ih _ _ _ _ _ _ _ hvL hr hc hL,
        getCell_setCell_ne g _ (cellIdx_ne hr hc hq.1 hq.2 hqne)]

theorem blanketLoop_full :
    ∀ (L : List (ℕ × ℕ)), L.Nodup → (∀ p ∈ L, p.1 < 4 ∧ p.2 < 4) →
      ∀ (g : Grid) (t : ℚ) (cnt ps : ℕ) (tu : ℚ), g.length = 16 →
        BLANKET_SPRAY_AMOUNT * L.length ≤ t →
        (∀ p ∈ L,
            getCell (blanketLoop L g t cnt ps tu).grid p.1 p.2 = CellStatus.Sprayed)
        ∧ (blanketLoop L g t cnt ps tu).cnt = cnt + L.length
        ∧ (blanketLoop L g t cnt ps tu).ps = ps + L.length := by
  intro L
  induction L with
  | nil => intro _ _ g t cnt ps tu _ _; exact ⟨by simp, rfl, rfl⟩
  | cons q L ih =>
    intro hnd hv g t cnt ps tu hlen ht
    have hq := hv q (List.mem_cons_self ..)
    have hqL : q ∉ L := (List.nodup_cons.mp hnd).1
    have hndL := (List.nodup_cons.mp hnd).2
    have hvL := fun p hp => hv p (List.mem_cons_of_mem q hp)
    have hlen' : (BLANKET_SPRAY_AMOUNT * ((q :: L).length : ℚ))
        = BLANKET_SPRAY_AMOUNT * (L.length : ℚ) + BLANKET_SPRAY_AMOUNT := by
      push_cast [List.length_cons]
      ring
    have h0 : (0 : ℚ) ≤ BLANKET_SPRAY_AMOUNT * (L.length : ℚ) := by
      unfold BLANKET_SPRAY_AMOUNT
      positivity
    have hcond : t ≥ BLANKET_SPRAY_AMOUNT := by
      rw [hlen'] at ht
      linarith
    have ht' : BLANKET_SPRAY_AMOUNT * (L.length : ℚ) ≤ t - BLANKET_SPRAY_AMOUNT := by
      rw [hlen'] at ht
      linarith
    simp only [blanketLoop, if_pos hcond]
    have hrec := ih hndL hvL (setCell g q.1 q.2 CellStatus.Sprayed)
      (t - BLANKET_SPRAY_AMOUNT) (cnt + 1) (ps + 1) (tu + BLANKET_SPRAY_AMOUNT)
      (by rw [length_setCell, hlen]) ht'
    refine ⟨?_, ?_, ?_⟩
    · intro p hp
      rcases List.mem_cons.mp hp with hpq | hpL
      · subst hpq
        have hu := blanketLoop_unchanged L (setCell g p.1 p.2 CellStatus.Sprayed)
          (t - BLANKET_SPRAY_AMOUNT) (cnt + 1) (ps + 1) (tu + BLANKET_SPRAY_AMOUNT)
          p.1 p.2 hvL hq.1 hq.2 (by simpa using hqL)
        rw [hu, getCell_setCell_self g p.1 p.2 _ (by rw [hlen]; omega)]
      · exact hrec.1 p hpL
    · have := hrec.2.1
      simp only [List.length_cons]
      omega
    · have := hrec.2.2
      simp only [List.length_cons]
      omega

theorem blanketLoop_exact :
    ∀ (L : List (ℕ × ℕ)), L.Nodup → (∀ p ∈ L, p.1 < 4 ∧ p.2 < 4) →
      ∀ (k : ℕ) (g : Grid) (t : ℚ) (cnt ps : ℕ) (tu : ℚ), g.length = 16 →
        t = BLANKET_SPRAY_AMOUNT * k → k ≤ L.length →
        (∀ (i : ℕ) (hi : i < L.length),
            getCell (blanketLoop L g t cnt ps tu).grid
                (L.get ⟨i, hi⟩).1 (L.get ⟨i, hi⟩).2
              = if i < k then CellStatus.Sprayed else CellStatus.Healthy)
        ∧ (blanketLoop L g t cnt ps tu).ps = ps + k := by
  intro L
  induction L with
  | nil =>
    intro _ _ k g t cnt ps tu _ _ hk
    have hk0 : k = 0 := by simpa using hk
    subst hk0
    exact ⟨fun i hi => absurd hi (by simp), rfl⟩
  | cons q L ih =>
    intro hnd hv k g t cnt ps tu hlen ht hk
    have hq := hv q (List.mem_cons_self ..)
    have hqL : q ∉ L := (List.nodup_cons.mp hnd).1
    have hndL := (List.nodup_cons.mp hnd).2
    have hvL := fun p hp => hv p (List.mem_cons_of_mem q hp)
    cases k with
    | zero =>
      have ht0 : t = 0 := by rw [ht]; push_cast; ring
      have hcond : ¬ t ≥ BLANKET_SPRAY_AMOUNT := by
        rw [ht0]
        unfold BLANKET_SPRAY_AMOUNT
        norm_num
      simp only [blanketLoop, if_neg hcond]
      have hrec := ih hndL hvL 0 (setCell g q.1 q.2 CellStatus.Healthy) t cnt ps tu
        (by rw [length_setCell, hlen]) (by rw [ht0]; push_cast; ring) (Nat.zero_le _)
      refine ⟨?_, hrec.2⟩
      intro i hi
      cases i with
      | zero =>
        have hu := blanketLoop_unchanged L (setCell g q.1 q.2 CellStatus.Healthy)
          t cnt ps tu q.1 q.2 hvL hq.1 hq.2 (by simpa using hqL)
        have hget : (q :: L).get ⟨0, hi⟩ = q := rfl
        rw [hget, hu, getCell_setCell_self g q.1 q.2 _ (by rw [hlen]; omega)]
        simp
      | succ m =>
        have hh := hrec.1 m (by simpa using hi)
        simpa using hh
    | succ j =>
      have hj0 : (0 : ℚ) ≤ (j : ℚ) := Nat.cast_nonneg j
      have hcond : t ≥ BLANKET_SPRAY_AMOUNT := by
        rw [ht]
        unfold BLANKET_SPRAY_AMOUNT
        push_cast
        nlinarith
      have ht' : t - BLANKET_SPRAY_AMOUNT = BLANKET_SPRAY_AMOUNT * (j : ℚ) := by
        rw [ht]
        push_cast
        ring
      simp only [blanketLoop, if_pos hcond]
      have hrec := ih hndL hvL j (setCell g q.1 q.2 CellStatus.Sprayed)
        (t - BLANKET_SPRAY_AMOUNT) (cnt + 1) (ps + 1) (tu + BLANKET_SPRAY_AMOUNT)
        (by rw [length_setCell, hlen]) ht'
        (by simp only [List.length_cons] at hk; omega)
      refine ⟨?_, ?_⟩
      · intro i hi
        cases i with
        | zero =>
          have hu := blanketLoop_unchanged L (setCell g q.1 q.2 CellStatus.Sprayed)
            (t - BLANKET_SPRAY_AMOUNT) (cnt + 1) (ps + 1) (tu + BLANKET_SPRAY_AMOUNT)
            q.1 q.2 hvL hq.1 hq.2 (by simpa using hqL)
          have hget : (q :: L).get ⟨0, hi⟩ = q := rfl
          rw [hget, hu, getCell_setCell_self g q.1 q.2 _ (by rw [hlen]; omega)]
          simp
        | succ m =>
          have hh := hrec.1 m (by simpa using hi)
          simpa [Nat.succ_lt_succ_iff] using hh
      · have := hrec.2
        omega

/-! Characterization of the scan phase. -/

set_option maxHeartbeats 1000000 in
theorem diseasedCount_scanGrid (cells : Finset (ℕ × ℕ)) (g : Grid)
    (hv : ∀ p ∈ cells, p.1 < 4 ∧ p.2 < 4) (hlen : g.length = 16) :
    diseasedCount (scanGrid cells g) = cells.card := by
  unfold diseasedCount
  have h1 : (allCoords.filter fun p =>
        decide (getCell (scanGrid cells g) p.1 p.2 = CellStatus.Diseased))
      = allCoords.filter fun p => decide (p ∈ cells) := by
    apply List.filter_congr
    intro p hp
    have hm := mem_allCoords.1 hp
    have hchar := getCell_scanGrid cells g hlen hm.1 hm.2
    by_cases hc : p ∈ cells
    · have hc' : (p.1, p.2) ∈ cells := by rwa [Prod.mk.eta]
      rw [if_pos hc'] at hchar
      simp [hchar, hc]
    · have hc' : (p.1, p.2) ∉ cells := by rwa [Prod.mk.eta]
      rw [if_neg hc'] at hchar
      simp [hchar, hc]
  rw [h1]
  have hnd : (allCoords.filter fun p => decide (p ∈ cells)).Nodup :=
    allCoords_nodup.filter _
  rw [← List.toFinset_card_of_nodup hnd]
  congr 1
  ext p
  simp only [List.mem_toFinset, List.mem_filter, decide_eq_true_eq]
  constructor
  · exact fun h => h.2
  · exact fun h => ⟨mem_allCoords.2 (hv p h), h⟩

theorem scanFindingsAux_coords (cells : Finset (ℕ × ℕ)) (dIdx : ℕ → ℕ) :
    ∀ (L : List (ℕ × ℕ)) (k : ℕ),
      (scanFindingsAux cells dIdx L k).map Finding.coords
        = (L.filter fun p => decide (p ∈ cells)).map fun p => (p.1 + 1, p.2 + 1) := by
  intro L
  induction L with
  | nil => intro k; rfl
  | cons p rest ih =>
    intro k
    by_cases hp : p ∈ cells
    · have e2 : (p :: rest).filter (fun q => decide (q ∈ cells))
          = p :: rest.filter (fun q => decide (q ∈ cells)) := by
        simp [List.filter_cons, hp]
      simp only [scanFindingsAux, if_pos hp, List.map_cons, e2]
      rw [ih (k + 1)]
    · have e2 : (p :: rest).filter (fun q => decide (q ∈ cells))
          = rest.filter (fun q => decide (q ∈ cells)) := by
        simp [List.filter_cons, hp]
      simp only [scanFindingsAux, if_neg hp, e2]
      exact ih k

theorem get_pesticide_amount_nonneg (name : String) :
    0 ≤ get_pesticide_amount name := by
  unfold get_pesticide_amount BASE_SPRAY_AMOUNT
  split_ifs <;> norm_num

theorem scanFindingsAux_pesticide_nonneg (cells : Finset (ℕ × ℕ)) (dIdx : ℕ → ℕ) :
    ∀ (L : List (ℕ × ℕ)) (k : ℕ), ∀ f ∈ scanFindingsAux cells dIdx L k,
      0 ≤ f.pesticide_used := by
  intro L
  induction L with
  | nil => intro k f hf; simp [scanFindingsAux] at hf
  | cons p rest ih =>
    intro k f hf
    by_cases hp : p ∈ cells
    · simp only [scanFindingsAux, if_pos hp, List.mem_cons] at hf
      rcases hf with hf | hf
      · rw [hf]
        exact get_pesticide_amount_nonneg _
      · exact ih (k + 1) f hf
    · simp only [scanFindingsAux, if_neg hp] at hf
      exact ih k f hf

theorem scanFindings_pesticide_nonneg (d : ScanDraw) :
    ∀ f ∈ scanFindings d, 0 ≤ f.pesticide_used :=
  scanFindingsAux_pesticide_nonneg d.cells d.diseaseIdx allCoords 0

/-! Tank-level monotonicity of the loops and operations. -/

theorem autoLoop2_tank :
    ∀ (fs : List Finding) (g : Grid) (t : ℚ) (cnt : ℕ) (log : List String),
      (∀ f ∈ fs, 0 ≤ f.pesticide_used) → 0 ≤ t →
      0 ≤ (autoLoop2 fs g t cnt log).tank ∧ (autoLoop2 fs g t cnt log).tank ≤ t := by
  intro fs
  induction fs with
  | nil => intro g t cnt log _ h0; exact ⟨h0, le_refl t⟩
  | cons f rest ih =>
    intro g t cnt log hnn h0
    have hf0 : 0 ≤ f.pesticide_used := hnn f (List.mem_cons_self ..)
    have hrest := fun f hf => hnn f (List.mem_cons_of_mem _ hf)
    simp only [autoLoop2]
    split
    · rename_i hge
      have h1 : 0 ≤ t - f.pesticide_used := sub_nonneg.mpr hge
      have := ih (setCell g (f.coords.1 - 1) (f.coords.2 - 1) CellStatus.Sprayed)
        (t - f.pesticide_used) (cnt + 1) log hrest h1
      exact ⟨this.1, this.2.trans (by linarith)⟩
    · exact ih g t cnt
        (add_to_log log
          ("⚠️ Failed to spray Grid (" ++ toString f.coords.1 ++ ","
            ++ toString f.coords.2 ++ "). Tank empty.")) hrest h0

theorem blanketLoop_tank :
    ∀ (L : List (ℕ × ℕ)) (g : Grid) (t : ℚ) (cnt ps : ℕ) (tu : ℚ), 0 ≤ t →
      0 ≤ (blanketLoop L g t cnt ps tu).tank ∧ (blanketLoop L g t cnt ps tu).tank ≤ t := by
  intro L
  induction L with
  | nil => intro g t cnt ps tu h0; exact ⟨h0, le_refl t⟩
  | cons q rest ih =>
    intro g t cnt ps tu h0
    simp only [blanketLoop]
    split
    · rename_i hge
      have h1 : 0 ≤ t - BLANKET_SPRAY_AMOUNT := sub_nonneg.mpr hge
      have := ih (setCell g q.1 q.2 CellStatus.Sprayed) (t - BLANKET_SPRAY_AMOUNT)
        (cnt + 1) (ps + 1) (tu + BLANKET_SPRAY_AMOUNT) h1
      have hB : (0 : ℚ) ≤ BLANKET_SPRAY_AMOUNT := by unfold BLANKET_SPRAY_AMOUNT; norm_num
      exact ⟨this.1, this.2.trans (by linarith)⟩
    · exact ih (setCell g q.1 q.2 CellStatus.Healthy) t cnt ps tu h0

theorem applyOp_tank (s : SessionState) (op : Op) (hv : op.valid)
    (h0 : 0 ≤ s.tank_level) :
    0 ≤ (applyOp s op).tank_level ∧ (applyOp s op).tank_level ≤ s.tank_level := by
  cases op with
  | auto d =>
    have h := autoLoop2_tank (scanFindings d)
      (autoLoop1 s.tank_level (scanFindings d) (scanGrid d.cells s.grid_status) 0).1
      s.tank_level s.sprayed_plots_count
      (add_to_log
        (add_to_log
          (add_to_log s.event_log "🤖 Autonomous scan initiated on main grid...")
          ("✅ Scan complete. Found " ++ toString (scanFindings d).length
            ++ " diseased plots."))
        "💧 Initiating simultaneous targeted spraying...")
      (scanFindings_pesticide_nonneg d) h0
    simpa [applyOp, autonomous_cycle] using h
  | manual r c amount =>
    rcases hv with ⟨_, _, h1, _⟩
    simp only [applyOp, manual_spray]
    split
    · exact ⟨h0, le_refl _⟩
    · rename_i hlt
      constructor
      · simp
      · simp only []
        have : s.tank_level - amount ≤ s.tank_level := by linarith
        exact max_le h0 this
  | blanket =>
    have h := blanketLoop_tank allCoords
      (allCoords.foldl (fun g p => setCell g p.1 p.2 CellStatus.Spraying) s.grid_status)
      s.tank_level s.sprayed_plots_count 0 0 h0
    simpa [applyOp, blanket_spray] using h
  | mark r c =>
    simp only [applyOp, markDiseased]
    split <;> exact ⟨h0, le_refl _⟩

theorem foldl_applyOp_tank :
    ∀ (ops : List Op) (s : SessionState), (∀ op ∈ ops, op.valid) →
      0 ≤ s.tank_level →
      0 ≤ (ops.foldl applyOp s).tank_level
      ∧ (ops.foldl applyOp s).tank_level ≤ s.tank_level := by
  intro ops
  induction ops with
  | nil => intro s _ h0; exact ⟨h0, le_refl _⟩
  | cons op rest ih =>
    intro s hv h0
    have h1 := applyOp_tank s op (hv op (List.mem_cons_self ..)) h0
    have h2 := ih (applyOp s op) (fun o ho => hv o (List.mem_cons_of_mem _ ho)) h1.1
    exact ⟨h2.1, h2.2.trans h1.2⟩

/-! Claim theorems. -/

/-- C1: for every sequence of UI-invocable operations (autonomous cycle,
manual spray, blanket spray, manual disease marking) starting from the
initial session state, the tank level stays within `[0, 100]` after every
operation, and it never increases across an operation (there is no reset
within a session). -/
theorem C1_tank_invariant (ops : List Op) (hv : ∀ op ∈ ops, op.valid) :
    0 ≤ (runOps ops).tank_level
    ∧ (runOps ops).tank_level ≤ TANK_CAPACITY_LITERS
    ∧ ∀ op : Op, op.valid →
        (applyOp (runOps ops) op).tank_level ≤ (runOps ops).tank_level := by
  have h0 : (0 : ℚ) ≤ initialState.tank_level := by
    unfold initialState TANK_CAPACITY_LITERS
    norm_num
  have h := foldl_applyOp_tank ops initialState hv h0
  refine ⟨h.1, ?_, ?_⟩
  · have he : initialState.tank_level = TANK_CAPACITY_LITERS := rfl
    exact le_trans h.2 (le_of_eq he)
  · intro op hop
    exact (applyOp_tank (runOps ops) op hop h.1).2

/-- Witness for C1 at a concrete operation sequence. -/
theorem C1_tank_invariant_witness :
    (∀ op ∈ [Op.blanket, Op.manual 0 0 (5 / 2), Op.mark 1 1], op.valid)
    ∧ 0 ≤ (runOps [Op.blanket, Op.manual 0 0 (5 / 2), Op.mark 1 1]).tank_level
    ∧ (runOps [Op.blanket, Op.manual 0 0 (5 / 2), Op.mark 1 1]).tank_level
        ≤ TANK_CAPACITY_LITERS := by
  have hv : ∀ op ∈ [Op.blanket, Op.manual 0 0 (5 / 2), Op.mark 1 1], op.valid := by
    intro op hop
    simp only [List.mem_cons, List.not_mem_nil, or_false] at hop
    rcases hop with h | h | h <;> subst h <;> simp [Op.valid] <;> norm_num
  exact ⟨hv, (C1_tank_invariant _ hv).1, (C1_tank_invariant _ hv).2.1⟩

/-- C4: a manual spray whose amount exceeds the tank level fails: the grid
is untouched, the tank level and counter are unchanged, the failure is the
newest log entry, and the system returns to `Idle`. -/
theorem C4_manual_spray_insufficient (s : SessionState) (r c : ℕ) (amount : ℚ)
    (h : s.tank_level < amount) :
    (manual_spray r c amount s).grid_status = s.grid_status
    ∧ (manual_spray r c amount s).tank_level = s.tank_level
    ∧ (manual_spray r c amount s).sprayed_plots_count = s.sprayed_plots_count
    ∧ (∃ t, (manual_spray r c amount s).event_log
        = ("⚠️ Manual spray failed. Insufficient pesticide (" ++ fmt1 amount
            ++ " L required, " ++ fmt1 s.tank_level ++ " L available).") :: t)
    ∧ (manual_spray r c amount s).system_status = "Idle" := by
  unfold manual_spray
  rw [if_pos h]
  exact ⟨rfl, rfl, rfl, add_to_log_head _ _, rfl⟩

/-- Witness for C4 at a concrete over-budget manual spray. -/
theorem C4_manual_spray_insufficient_witness :
    initialState.tank_level < 200
    ∧ (manual_spray 0 0 200 initialState).tank_level = initialState.tank_level
    ∧ (manual_spray 0 0 200 initialState).grid_status = initialState.grid_status := by
  have h : initialState.tank_level < 200 := by
    unfold initialState TANK_CAPACITY_LITERS
    norm_num
  exact ⟨h, (C4_manual_spray_insufficient initialState 0 0 200 h).2.1,
    (C4_manual_spray_insufficient initialState 0 0 200 h).1⟩

/-- C5: the autonomous scan always selects a diseased-cell count in `[3, 5]`
(for every `randint` draw), the diseased cells form a subset of distinct
cells, and the scan never marks more than 16 cells diseased. -/
theorem C5_scan_selection (d : ScanDraw) (g : Grid) (hok : d.sampleOk)
    (hlen : g.length = 16) :
    3 ≤ d.numDiseased ∧ d.numDiseased ≤ 5
    ∧ diseasedCount (scanGrid d.cells g) = d.numDiseased
    ∧ diseasedCount (scanGrid d.cells g) ≤ 16
    ∧ ∀ r c : ℕ, r < 4 → c < 4 →
        (getCell (scanGrid d.cells g) r c = CellStatus.Diseased ↔ (r, c) ∈ d.cells) := by
  have h35 : 3 ≤ d.numDiseased ∧ d.numDiseased ≤ 5 := by
    unfold ScanDraw.numDiseased randint
    omega
  have hcnt : diseasedCount (scanGrid d.cells g) = d.cells.card :=
    diseasedCount_scanGrid d.cells g hok.2 hlen
  refine ⟨h35.1, h35.2, ?_, ?_, ?_⟩
  · rw [hcnt, hok.1]
  · rw [hcnt, hok.1]
    omega
  · intro r c hr hc
    rw [getCell_scanGrid d.cells g hlen hr hc]
    by_cases hm : (r, c) ∈ d.cells
    · simp [hm]
    · simp [hm]

/-- Witness for C5 at a concrete draw. -/
theorem C5_scan_selection_witness :
    ((⟨0, {(0, 0), (0, 1), (1, 2)}, fun _ => 0⟩ : ScanDraw).sampleOk
      ∧ (initGrid : Grid).length = 16)
    ∧ diseasedCount (scanGrid ({(0, 0), (0, 1), (1, 2)} : Finset (ℕ × ℕ)) initGrid)
        = (⟨0, {(0, 0), (0, 1), (1, 2)}, fun _ => 0⟩ : ScanDraw).numDiseased := by
  have hok : (⟨0, {(0, 0), (0, 1), (1, 2)}, fun _ => 0⟩ : ScanDraw).sampleOk := by
    refine ⟨by decide, by decide⟩
  exact ⟨⟨hok, by simp [initGrid]⟩,
    (C5_scan_selection _ initGrid hok (by simp [initGrid])).2.2.1⟩

/-- C6: the event log never exceeds 20 entries from an empty start, every
insertion puts the new message at index 0, and an insertion that would
exceed the bound evicts the entry at the tail. -/
theorem C6_event_log_bounded (msgs : List String) :
    ((msgs.foldl add_to_log []).length ≤ 20)
    ∧ ∀ (log : List String) (m : String),
        (∃ t, add_to_log log m = m :: t)
        ∧ ((m :: log).length > 20 → add_to_log log m = m :: log.dropLast) := by
  refine ⟨foldl_add_to_log_le msgs [] (by simp), ?_⟩
  intro log m
  exact ⟨add_to_log_head log m, add_to_log_evict log m⟩

/-- Witness for C6 on a 25-message sequence and a full 20-entry log. -/
theorem C6_event_log_bounded_witness :
    (((List.replicate 25 "x").foldl add_to_log []).length ≤ 20)
    ∧ add_to_log (List.replicate 20 "x") "y"
        = "y" :: (List.replicate 20 "x").dropLast := by
  refine ⟨(C6_event_log_bounded (List.replicate 25 "x")).1, ?_⟩
  exact ((C6_event_log_bounded []).2 (List.replicate 20 "x") "y").2 (by simp)

/-- C7: manual disease marking turns a `Healthy` or `Sprayed` cell
`Diseased`, and is a strict no-op (the whole state unchanged) on a cell in
any other status. -/
theorem C7_markDiseased (s : SessionState) (r c : ℕ) (hr : r < 4) (hc : c < 4)
    (hlen : s.grid_status.length = 16) :
    (getCell s.grid_status r c ∈ [CellStatus.Healthy, CellStatus.Sprayed] →
        getCell (markDiseased r c s).grid_status r c = CellStatus.Diseased)
    ∧ (getCell s.grid_status r c ∉ [CellStatus.Healthy, CellStatus.Sprayed] →
        markDiseased r c s = s) := by
  constructor
  · intro hmem
    unfold markDiseased
    rw [if_pos hmem]
    exact getCell_setCell_self _ r c _ (by rw [hlen]; omega)
  · intro hmem
    unfold markDiseased
    rw [if_neg hmem]

/-- Witness for C7 at cell (0,0) of the initial (healthy) grid. -/
theorem C7_markDiseased_witness :
    (0 < 4 ∧ initialState.grid_status.length = 16
      ∧ getCell initialState.grid_status 0 0
          ∈ [CellStatus.Healthy, CellStatus.Sprayed])
    ∧ getCell (markDiseased 0 0 initialState).grid_status 0 0
        = CellStatus.Diseased := by
  have h1 : initialState.grid_status.length = 16 := by simp [initialState, initGrid]
  have h2 : getCell initialState.grid_status 0 0
      ∈ [CellStatus.Healthy, CellStatus.Sprayed] := by decide
  exact ⟨⟨by norm_num, h1, h2⟩,
    (C7_markDiseased initialState 0 0 (by norm_num) (by norm_num) h1).1 h2⟩

/-- C10: the scan phase overwrites the status of every cell of the grid,
regardless of its previous status: afterwards a cell is `Diseased` exactly
when it is in the sampled set and `Healthy` otherwise, so `Sprayed` or
manually marked cells not re-sampled are reset to `Healthy`. -/
theorem C10_scan_overwrites_all (cells : Finset (ℕ × ℕ)) (g : Grid) (r c : ℕ)
    (hr : r < 4) (hc : c < 4) (hlen : g.length = 16) :
    getCell (scanGrid cells g) r c
      = if (r, c) ∈ cells then CellStatus.Diseased else CellStatus.Healthy :=
  getCell_scanGrid cells g hlen hr hc

/-- Witness for C10: a fully `Sprayed` grid is reset by a scan whose sample
contains only cell (0,0); cell (1,1) comes out `Healthy`. -/
theorem C10_scan_overwrites_all_witness :
    (1 < 4 ∧ (List.replicate 16 CellStatus.Sprayed : Grid).length = 16)
    ∧ getCell (scanGrid {(0, 0)} (List.replicate 16 CellStatus.Sprayed)) 1 1
        = if ((1, 1) : ℕ × ℕ) ∈ ({(0, 0)} : Finset (ℕ × ℕ)) then CellStatus.Diseased
          else CellStatus.Healthy := by
  exact ⟨⟨by norm_num, by simp⟩,
    C10_scan_overwrites_all {(0, 0)} _ 1 1 (by norm_num) (by norm_num) (by simp)⟩

theorem length_sprayingFold (g : Grid) :
    (allCoords.foldl (fun g p => setCell g p.1 p.2 CellStatus.Spraying) g).length
      = g.length :=
  length_foldl_setCell (fun _ => CellStatus.Spraying) allCoords g

theorem allCoords_get :
    ∀ (i : ℕ) (hi : i < 16), allCoords.get ⟨i, hi⟩ = (i / 4, i % 4) := by decide

theorem blanket_spray_grid (s : SessionState) :
    (blanket_spray s).grid_status
      = (blanketLoop allCoords
          (allCoords.foldl (fun g p => setCell g p.1 p.2 CellStatus.Spraying)
            s.grid_status)
          s.tank_level s.sprayed_plots_count 0 0).grid := rfl

theorem blanket_spray_cnt (s : SessionState) :
    (blanket_spray s).sprayed_plots_count
      = (blanketLoop allCoords
          (allCoords.foldl (fun g p => setCell g p.1 p.2 CellStatus.Spraying)
            s.grid_status)
          s.tank_level s.sprayed_plots_count 0 0).cnt := rfl

theorem blanket_spray_log (s : SessionState) :
    (blanket_spray s).event_log
      = add_to_log
          (if (blanketLoop allCoords
                (allCoords.foldl (fun g p => setCell g p.1 p.2 CellStatus.Spraying)
                  s.grid_status)
                s.tank_level s.sprayed_plots_count 0 0).ps < GRID_ROWS * GRID_COLS
            then add_to_log
                (add_to_log s.event_log
                  "📢 Simultaneous blanket spray initiated for all grids.")
                ("⚠️ Tank empty. Only "
                  ++ toString (blanketLoop allCoords
                      (allCoords.foldl (fun g p => setCell g p.1 p.2 CellStatus.Spraying)
                        s.grid_status)
                      s.tank_level s.sprayed_plots_count 0 0).ps
                  ++ " grids were treated.")
            else add_to_log s.event_log
              "📢 Simultaneous blanket spray initiated for all grids.")
          ("✅ Blanket spray complete. Used "
            ++ fmt1 (blanketLoop allCoords
                (allCoords.foldl (fun g p => setCell g p.1 p.2 CellStatus.Spraying)
                  s.grid_status)
                s.tank_level s.sprayed_plots_count 0 0).used
            ++ " L.") := rfl

/-- C2: blanket spray over the 4×4 grid at 1.5 L per cell.  With at least
`1.5 × 16` L in the tank all 16 cells end `Sprayed` and the counter grows
by exactly 16; with exactly `1.5 × k` L (`k < 16`) the first `k` cells in
row-major order end `Sprayed`, the remaining ones end `Healthy` (even if
previously `Diseased`), and a tank-exhaustion warning is logged. -/
theorem C2_blanket_spray (s : SessionState) (hlen : s.grid_status.length = 16) :
    (BLANKET_SPRAY_AMOUNT * 16 ≤ s.tank_level →
        (∀ r c : ℕ, r < 4 → c < 4 →
            getCell (blanket_spray s).grid_status r c = CellStatus.Sprayed)
        ∧ (blanket_spray s).sprayed_plots_count = s.sprayed_plots_count + 16)
    ∧ ∀ k : ℕ, k < 16 → s.tank_level = BLANKET_SPRAY_AMOUNT * k →
        (∀ i : ℕ, i < 16 →
            getCell (blanket_spray s).grid_status (i / 4) (i % 4)
              = if i < k then CellStatus.Sprayed else CellStatus.Healthy)
        ∧ ("⚠️ Tank empty. Only " ++ toString k ++ " grids were treated.")
            ∈ (blanket_spray s).event_log := by
  have hg1len : (allCoords.foldl (fun g p => setCell g p.1 p.2 CellStatus.Spraying)
      s.grid_status).length = 16 := by
    rw [length_sprayingFold, hlen]
  have hvall : ∀ p ∈ allCoords, p.1 < 4 ∧ p.2 < 4 := fun p hp => mem_allCoords.1 hp
  constructor
  · intro ht
    have hac : allCoords.length = 16 := rfl
    have hcast : BLANKET_SPRAY_AMOUNT * (allCoords.length : ℚ) ≤ s.tank_level := by
      rw [hac]
      push_cast
      exact ht
    have h1 := blanketLoop_full allCoords allCoords_nodup hvall
    have h2 := h1 (allCoords.foldl (fun g p => setCell g p.1 p.2 CellStatus.Spraying)
      s.grid_status)
    have hfull := h2 s.tank_level s.sprayed_plots_count 0 0 hg1len hcast
    constructor
    · intro r c hr hc
      rw [blanket_spray_grid]
      exact hfull.1 (r, c) (mem_allCoords.2 ⟨hr, hc⟩)
    · rw [blanket_spray_cnt]
      rw [hac] at hfull
      exact hfull.2.1
  · intro k hk htank
    have h1 := blanketLoop_exact allCoords allCoords_nodup hvall k
    have h2 := h1 (allCoords.foldl (fun g p => setCell g p.1 p.2 CellStatus.Spraying)
      s.grid_status)
    have hexact := h2 s.tank_level s.sprayed_plots_count 0 0 hg1len htank
      (Nat.le_of_lt hk)
    constructor
    · intro i hi
      have h2 := hexact.1 i hi
      rw [allCoords_get i hi] at h2
      rw [blanket_spray_grid]
      exact h2
    · rw [blanket_spray_log, hexact.2, Nat.zero_add,
        if_pos (show k < GRID_ROWS * GRID_COLS from hk)]
      obtain ⟨t1, ht1⟩ := add_to_log_head
        (add_to_log s.event_log "📢 Simultaneous blanket spray initiated for all grids.")
        ("⚠️ Tank empty. Only " ++ toString k ++ " grids were treated.")
      rw [ht1]
      exact mem_add_to_log_cons _ _ _

/-- Witness for C2: a full tank treats all 16 cells; a 9 L tank
(`1.5 × 6`) produces the logged warning about 6 treated grids. -/
theorem C2_blanket_spray_witness :
    (initialState.grid_status.length = 16
      ∧ BLANKET_SPRAY_AMOUNT * 16 ≤ initialState.tank_level
      ∧ ({ initialState with tank_level := 9 } : SessionState).tank_level
          = BLANKET_SPRAY_AMOUNT * ((6 : ℕ) : ℚ))
    ∧ (blanket_spray initialState).sprayed_plots_count
        = initialState.sprayed_plots_count + 16
    ∧ ("⚠️ Tank empty. Only " ++ toString (6 : ℕ) ++ " grids were treated.")
        ∈ (blanket_spray { initialState with tank_level := 9 }).event_log := by
  have hlen : initialState.grid_status.length = 16 := by simp [initialState, initGrid]
  have hlen9 : ({ initialState with tank_level := 9 } : SessionState).grid_status.length
      = 16 := hlen
  have ht1 : BLANKET_SPRAY_AMOUNT * 16 ≤ initialState.tank_level := by
    unfold BLANKET_SPRAY_AMOUNT initialState TANK_CAPACITY_LITERS
    norm_num
  have ht2 : ({ initialState with tank_level := 9 } : SessionState).tank_level
      = BLANKET_SPRAY_AMOUNT * ((6 : ℕ) : ℚ) := by
    unfold BLANKET_SPRAY_AMOUNT
    norm_num
  exact ⟨⟨hlen, ht1, ht2⟩,
    ((C2_blanket_spray initialState hlen).1 ht1).2,
    ((C2_blanket_spray _ hlen9).2 6 (by norm_num) ht2).2⟩

/-- A legitimate autonomous draw: three diseased cells (0,0), (0,1), (0,2),
the first two with a Severe disease (2.0 L each), the third with a Low one
(1.0 L). -/
def d3 : ScanDraw := ⟨0, {(0, 0), (0, 1), (0, 2)}, fun k => if k < 2 then 0 else 3⟩

/-- UI-reachable prefix leaving 3.0 L in the tank: four blanket sprays
(24 L each) and one 1.0 L manual spray from a fresh session. -/
def preOps : List Op := [Op.blanket, Op.blanket, Op.blanket, Op.blanket, Op.manual 0 0 1]

set_option maxRecDepth 6000 in
/-- C3: the claim (and the source's own comment "If tank runs out, grids
remain marked as DISEASED") says a finding whose amount exceeds the tank at
its turn is left `Diseased`.  The code disagrees: the first spray loop
marks every finding affordable against the undebited tank `Spraying`, and
the second (debiting) loop never resets a failed cell, so with 3.0 L and
findings costing 2+2+1 L the second finding ends stuck in `Spraying`, not
`Diseased` — while the failure log entry is still emitted. -/
theorem C3_spray_phase_code_bug :
    (runOps preOps).tank_level = 3
    ∧ d3.sampleOk
    ∧ (scanFindings d3).map Finding.pesticide_used = [2, 2, 1]
    ∧ getCell (autonomous_cycle d3 (runOps preOps)).grid_status 0 1
        = CellStatus.Spraying
    ∧ getCell (autonomous_cycle d3 (runOps preOps)).grid_status 0 1
        ≠ CellStatus.Diseased
    ∧ ("⚠️ Failed to spray Grid (1,2). Tank empty.")
        ∈ (autonomous_cycle d3 (runOps preOps)).event_log := by
  refine ⟨by with_unfolding_all decide, ⟨by decide, by decide⟩,
    by with_unfolding_all decide, by with_unfolding_all decide,
    by with_unfolding_all decide, by with_unfolding_all decide⟩

set_option maxRecDepth 4000 in
/-- C8 counterexample: the engine performs no non-positive-amount check.
Invoked with amount −1 L it does not reject: the counter increments, the
cell is marked `Sprayed`, and the tank even rises to 101 L, above
capacity. -/
theorem C8_counterexample :
    ((-1 : ℚ) ≤ 0)
    ∧ (manual_spray 0 0 (-1) initialState).sprayed_plots_count = 1
    ∧ initialState.sprayed_plots_count = 0
    ∧ getCell (manual_spray 0 0 (-1) initialState).grid_status 0 0
        = CellStatus.Sprayed
    ∧ getCell initialState.grid_status 0 0 = CellStatus.Healthy
    ∧ (manual_spray 0 0 (-1) initialState).tank_level = 101
    ∧ TANK_CAPACITY_LITERS = 100 := by
  with_unfolding_all decide

/-- C8 amended: the core never rejects a non-positive amount — only the UI
slider (1.0–10.0 L) keeps such amounts out.  A manual spray with
`amount ≤ 0` (which always passes the `tank_level < amount` check when the
tank is nonnegative) proceeds as a normal spray: the cell is set `Sprayed`,
the tank becomes `max 0 (tank − amount)`, and the counter increments. -/
theorem C8_no_invalid_amount_check (s : SessionState) (r c : ℕ) (amount : ℚ)
    (hle : amount ≤ 0) (h0 : 0 ≤ s.tank_level) :
    (manual_spray r c amount s).grid_status
        = setCell s.grid_status r c CellStatus.Sprayed
    ∧ (manual_spray r c amount s).tank_level = max 0 (s.tank_level - amount)
    ∧ (manual_spray r c amount s).sprayed_plots_count = s.sprayed_plots_count + 1
    ∧ (manual_spray r c amount s).system_status = "Idle" := by
  have h : ¬ s.tank_level < amount := not_lt.mpr (hle.trans h0)
  unfold manual_spray
  rw [if_neg h]
  exact ⟨rfl, rfl, rfl, rfl⟩

/-- Witness for the amended C8 at amount −1 on the initial state. -/
theorem C8_no_invalid_amount_check_witness :
    ((-1 : ℚ) ≤ 0 ∧ 0 ≤ initialState.tank_level)
    ∧ (manual_spray 0 0 (-1) initialState).sprayed_plots_count
        = initialState.sprayed_plots_count + 1 := by
  have h1 : (-1 : ℚ) ≤ 0 := by norm_num
  have h2 : 0 ≤ initialState.tank_level := by
    unfold initialState TANK_CAPACITY_LITERS
    norm_num
  exact ⟨⟨h1, h2⟩, (C8_no_invalid_amount_check initialState 0 0 (-1) h1 h2).2.2.1⟩

/-- A legitimate autonomous draw with diseased cells (0,0), (0,1), (1,2). -/
def d9 : ScanDraw := ⟨0, {(0, 0), (0, 1), (1, 2)}, fun _ => 0⟩

set_option maxRecDepth 4000 in
/-- C9 counterexample: the stored scan findings are not 0-indexed.  For the
diseased cells (0,0), (0,1), (1,2) the stored coords are (1,1), (1,2),
(2,3) — in particular the first finding records (1,1), which is not the
0-indexed coordinate of any diseased cell of the draw. -/
theorem C9_counterexample :
    d9.sampleOk
    ∧ (autonomous_cycle d9 initialState).last_scan_results = some (scanFindings d9)
    ∧ (scanFindings d9).map Finding.coords = [(1, 1), (1, 2), (2, 3)]
    ∧ [((1, 1) : ℕ × ℕ), (1, 2), (2, 3)] ≠ [(0, 0), (0, 1), (1, 2)]
    ∧ ((1, 1) : ℕ × ℕ) ∉ d9.cells := by
  refine ⟨⟨by decide, by decide⟩, rfl, by with_unfolding_all decide, by decide,
    by decide⟩

/-- C9 amended: the scan findings stored in `last_scan_results` record
their coords 1-indexed: walking the grid row-major, each diseased cell
`(r, c)` yields a finding with coords `(r+1, c+1)` (the spray loop converts
back by subtracting 1 for array access). -/
theorem C9_coords_one_indexed (d : ScanDraw) (s : SessionState) :
    (autonomous_cycle d s).last_scan_results = some (scanFindings d)
    ∧ (scanFindings d).map Finding.coords
        = (allCoords.filter fun p => decide (p ∈ d.cells)).map
            fun p => (p.1 + 1, p.2 + 1) :=
  ⟨rfl, scanFindingsAux_coords d.cells d.diseaseIdx allCoords 0⟩

end GreenProtect
